import Mathlib

/-!
Verification of the evaluation-stage kernels of the govaluate fork
(src/evaluationStage.go and src/sanitizedParameters.go).

Go's `float32` is modelled by an abstract carrier type `F` with decidable
equality and the arithmetic operations the kernels use; the structure
`GoFloat32` bundles the primitive facts about the Go `float32` type the
code relies on: the zero value that a failed `.(float32)` type assertion
yields, the constant `math.SmallestNonzeroFloat32`, and the default `%v`
rendering.  The properties proved here are shape-level properties of the
kernels that hold for every interpretation of the float arithmetic, so
the carrier is left abstract in the theorems and instantiated with `ℤ`
or `ℚ` for concrete evaluation.  Go's `==` on `float32` is modelled by
propositional equality on the carrier (IEEE NaN behaviour is outside
this model).
-/

/-- Runtime value model of the engine: an `interface{}` value as
discriminated by the kernels' type assertions.  `num`/`numVec` are
`float32`/`[]float32`, `regex` models a compiled `*regexp.Regexp` by its
matching function, `nil` is the nil interface value. -/
inductive Value (F : Type) where
  | num : F → Value F
  | numVec : List F → Value F
  | bool : Bool → Value F
  | boolVec : List Bool → Value F
  | str : String → Value F
  | regex : (String → Bool) → Value F
  | list : List (Value F) → Value F
  | nil : Value F

/-- Model of the `Parameters` interface: `Get(name) (interface{}, error)`. -/
def Params (F : Type) : Type := String → Except String (Value F)

/-- Primitive facts about Go's `float32` used by the source: the zero
value produced by a failed type assertion, the library constant
`math.SmallestNonzeroFloat32`, and the default `%v` rendering of a
scalar. -/
structure GoFloat32 (F : Type) where
  zero : F
  smallestNonzero : F
  fmt : F → String

variable {F : Type} {F64 : Type} {Ref : Type} [DecidableEq F] [Add F] [Mul F]

/-- Model of the comma-ok assertion `v.(float32)`: the zero value of
`float32` together with `false` when the assertion fails. -/
def asFloat32 (g : GoFloat32 F) : Value F → F × Bool
  | .num x => (x, true)
  | _ => (g.zero, false)

/-- Model of the comma-ok assertion `v.([]float32)`: a nil slice
(length 0) together with `false` when the assertion fails. -/
def asFloat32Vec : Value F → List F × Bool
  | .numVec xs => (xs, true)
  | _ => ([], false)

/-- Model of the comma-ok assertion `v.(bool)`. -/
def asBool : Value F → Bool × Bool
  | .bool b => (b, true)
  | _ => (false, false)

/-- Model of the comma-ok assertion `v.([]bool)`. -/
def asBoolVec : Value F → List Bool × Bool
  | .boolVec bs => (bs, true)
  | _ => ([], false)

/-- Source `isString`: reports whether the value is a `string`. -/
def isString : Value F → Bool
  | .str _ => true
  | _ => false

mutual
/-- Model of `fmt.Sprintf("%v", v)`, the default textual rendering used
by the string-concatenation branch of `addStage` and by error
messages. -/
def govFormat (g : GoFloat32 F) : Value F → String
  | .num x => g.fmt x
  | .numVec xs => "[" ++ String.intercalate " " (xs.map g.fmt) ++ "]"
  | .bool b => if b then "true" else "false"
  | .boolVec bs =>
      "[" ++ String.intercalate " " (bs.map fun b => if b then "true" else "false") ++ "]"
  | .str s => s
  | .regex _ => "<regexp>"
  | .list vs => "[" ++ govFormatList g vs ++ "]"
  | .nil => "<nil>"

/-- Rendering of the elements of a `[]interface{}` value, space
separated as `%v` does. -/
def govFormatList (g : GoFloat32 F) : List (Value F) → String
  | [] => ""
  | [v] => govFormat g v
  | v :: w :: vs => govFormat g v ++ " " ++ govFormatList g (w :: vs)
end

/-- The message of `fmt.Errorf("different array sizes: %v, %v", m, n)`,
the shape error every vector kernel raises on unequal lengths. -/
def shapeErr (m n : Nat) : String :=
  "different array sizes: " ++ toString m ++ ", " ++ toString n

/-- Source `addStage`: string concatenation when either side is a
string, otherwise numeric addition with scalar/vector broadcasting. -/
def addStage (g : GoFloat32 F) (left right : Value F) (_parameters : Params F) :
    Except String (Value F) :=
  if isString left || isString right then
    .ok (.str (govFormat g left ++ govFormat g right))
  else
    let (lax, laok) := asFloat32Vec left
    let (lx, lok) := asFloat32 g left
    let (rax, raok) := asFloat32Vec right
    let (rx, rok) := asFloat32 g right
    if laok && raok then
      if lax.length ≠ rax.length then
        .error (shapeErr lax.length rax.length)
      else
        .ok (.numVec (List.zipWith (fun a b => a + b) lax rax))
    else if laok && rok then
      .ok (.numVec (lax.map fun a => a + rx))
    else if lok && raok then
      .ok (.numVec (rax.map fun b => lx + b))
    else if lok && rok then
      .ok (.num (lx + rx))
    else
      .error "invalid operand for addition"

/-- Source `multiplyStage`: numeric multiplication with scalar/vector
broadcasting. -/
def multiplyStage (g : GoFloat32 F) (left right : Value F) (_parameters : Params F) :
    Except String (Value F) :=
  let (lax, laok) := asFloat32Vec left
  let (lx, lok) := asFloat32 g left
  let (rax, raok) := asFloat32Vec right
  let (rx, rok) := asFloat32 g right
  if laok && raok then
    if lax.length ≠ rax.length then
      .error (shapeErr lax.length rax.length)
    else
      .ok (.numVec (List.zipWith (fun a b => a * b) lax rax))
  else if laok && rok then
    .ok (.numVec (lax.map fun a => a * rx))
  else if lok && raok then
    .ok (.numVec (rax.map fun b => lx * b))
  else if lok && rok then
    .ok (.num (lx * rx))
  else
    .error "invalid operand for multiplication"

/-- Source `equalStage`: numeric `==` with scalar/vector broadcasting,
producing `bool`/`[]bool`; any operand that is not `float32`-shaped
(strings included) falls through to the operand error. -/
def equalStage (g : GoFloat32 F) (left right : Value F) (_parameters : Params F) :
    Except String (Value F) :=
  let (lax, laok) := asFloat32Vec left
  let (lx, lok) := asFloat32 g left
  let (rax, raok) := asFloat32Vec right
  let (rx, rok) := asFloat32 g right
  if laok && raok then
    if lax.length ≠ rax.length then
      .error (shapeErr lax.length rax.length)
    else
      .ok (.boolVec (List.zipWith (fun a b => decide (a = b)) lax rax))
  else if laok && rok then
    .ok (.boolVec (lax.map fun a => decide (a = rx)))
  else if lok && raok then
    .ok (.boolVec (rax.map fun b => decide (lx = b)))
  else if lok && rok then
    .ok (.bool (decide (lx = rx)))
  else
    .error "invalid operand for =="

/-- Source `notEqualStage`: numeric `!=` with scalar/vector
broadcasting; non-numeric operands fall through to the operand error. -/
def notEqualStage (g : GoFloat32 F) (left right : Value F) (_parameters : Params F) :
    Except String (Value F) :=
  let (lax, laok) := asFloat32Vec left
  let (lx, lok) := asFloat32 g left
  let (rax, raok) := asFloat32Vec right
  let (rx, rok) := asFloat32 g right
  if laok && raok then
    if lax.length ≠ rax.length then
      .error (shapeErr lax.length rax.length)
    else
      .ok (.boolVec (List.zipWith (fun a b => decide (a ≠ b)) lax rax))
  else if laok && rok then
    .ok (.boolVec (lax.map fun a => decide (a ≠ rx)))
  else if lok && raok then
    .ok (.boolVec (rax.map fun b => decide (lx ≠ b)))
  else if lok && rok then
    .ok (.bool (decide (lx ≠ rx)))
  else
    .error "invalid operand for !="

/-- Source `andStage`: logical `&&` over `bool`/`[]bool` with the same
broadcasting matrix (the unreachable statement after the operand-error
return in the Go source is dead code and is not mirrored). -/
def andStage (left right : Value F) (_parameters : Params F) :
    Except String (Value F) :=
  let (lax, laok) := asBoolVec left
  let (lx, lok) := asBool left
  let (rax, raok) := asBoolVec right
  let (rx, rok) := asBool right
  if laok && raok then
    if lax.length ≠ rax.length then
      .error (shapeErr lax.length rax.length)
    else
      .ok (.boolVec (List.zipWith (fun a b => a && b) lax rax))
  else if laok && rok then
    .ok (.boolVec (lax.map fun a => a && rx))
  else if lok && raok then
    .ok (.boolVec (rax.map fun b => lx && b))
  else if lok && rok then
    .ok (.bool (lx && rx))
  else
    .error "invalid operand for &&"

/-- Source `getNoData`: the NoData sentinel defaults to
`float32(math.SmallestNonzeroFloat32)`; a resolvable parameter named
`nodata` overrides it when it is a `float32` and is a configuration
error otherwise. -/
def getNoData (g : GoFloat32 F) (parameters : Params F) : Except String F :=
  match parameters "nodata" with
  | .error _ => .ok g.smallestNonzero
  | .ok val =>
    match val with
    | .num v => .ok v
    | _ => .error ("invalid nodata value: " ++ govFormat g val)

/-- Source `ternaryIfStage`: `cond ? value` — true lanes take the value,
false lanes take the NoData sentinel. -/
def ternaryIfStage (g : GoFloat32 F) (left right : Value F) (parameters : Params F) :
    Except String (Value F) :=
  match getNoData g parameters with
  | .error e => .error e
  | .ok noData =>
    let (lax, laok) := asBoolVec left
    let (lx, lok) := asBool left
    let (rax, raok) := asFloat32Vec right
    let (rx, rok) := asFloat32 g right
    if laok && raok then
      if lax.length ≠ rax.length then
        .error (shapeErr lax.length rax.length)
      else
        .ok (.numVec (List.zipWith (fun c x => if c then x else noData) lax rax))
    else if laok && rok then
      .ok (.numVec (lax.map fun c => if c then rx else noData))
    else if lok && raok then
      .ok (.numVec (rax.map fun x => if lx then x else noData))
    else if lok && rok then
      .ok (if lx then Value.num rx else Value.num noData)
    else
      .error "invalid operand for ternary if"

/-- Source `ternaryElseStage`: `… : alt` — lanes equal to the NoData
sentinel are replaced by the alternative, other lanes are preserved.
Note the scalar-left guards `lok || lx == noData`, where `lx` is the
zero value of `float32` whenever the assertion `left.(float32)`
failed. -/
def ternaryElseStage (g : GoFloat32 F) (left right : Value F) (parameters : Params F) :
    Except String (Value F) :=
  match getNoData g parameters with
  | .error e => .error e
  | .ok noData =>
    let (lax, laok) := asFloat32Vec left
    let (lx, lok) := asFloat32 g left
    let (rax, raok) := asFloat32Vec right
    let (rx, rok) := asFloat32 g right
    if laok && raok then
      if lax.length ≠ rax.length then
        .error (shapeErr lax.length rax.length)
      else
        .ok (.numVec (List.zipWith (fun a b => if a = noData then b else a) lax rax))
    else if laok && rok then
      .ok (.numVec (lax.map fun a => if a = noData then rx else a))
    else if (lok || decide (lx = noData)) && raok then
      .ok (.numVec (rax.map fun b => if lx = noData then b else lx))
    else if (lok || decide (lx = noData)) && rok then
      if lx = noData then .ok (.num rx) else .ok (.num lx)
    else
      .error "invalid operand for ternary else"

/-- Composition `ternaryElseStage(ternaryIfStage(c, a), b)` named by the
ternary-identity claim: the full `cond ? a : b` kernel pipeline. -/
def ternaryCompose (g : GoFloat32 F) (parameters : Params F) (c a b : Value F) :
    Except String (Value F) :=
  match ternaryIfStage g c a parameters with
  | .error e => .error e
  | .ok v => ternaryElseStage g v b parameters

/-- Lane-wise selection, the behaviour the ternary-identity claim
ascribes to the composed ternary kernels on three vectors: lane i is
the value lane where the condition lane is true and the alternative
lane where it is false. -/
def laneSelect : List Bool → List F → List F → List F
  | c :: cs, a :: xs, b :: ys => (if c then a else b) :: laneSelect cs xs ys
  | _, _, _ => []

/-- Source `regexStage`.  Go's `regexp.Compile`/`(*Regexp).Match` are
standard-library externals modelled by the `compile` argument, which
returns a matching function or a compilation error.  When `right` is
neither a string nor a compiled regex the Go code dereferences a nil
pattern and panics; when `left` is not a string the assertion
`left.(string)` panics — both panics are modelled as errors. -/
def regexStage (compile : String → Except String (String → Bool))
    (left right : Value F) (_parameters : Params F) : Except String (Value F) :=
  match right with
  | .str p =>
    match compile p with
    | .error e => .error ("Unable to compile regexp pattern " ++ p ++ ": " ++ e)
    | .ok pat =>
      match left with
      | .str s => .ok (.bool (pat s))
      | _ => .error "panic: interface conversion: left is not a string"
  | .regex pat =>
    match left with
    | .str s => .ok (.bool (pat s))
    | _ => .error "panic: interface conversion: left is not a string"
  | _ => .error "panic: nil pattern dereference"

/-- Source `notRegexStage`: delegates to `regexStage`, propagates its
error unchanged, and otherwise negates the boolean result. -/
def notRegexStage (compile : String → Except String (String → Bool))
    (left right : Value F) (parameters : Params F) : Except String (Value F) :=
  match regexStage compile left right parameters with
  | .error e => .error e
  | .ok ret =>
    match ret with
    | .bool b => .ok (.bool (!b))
    | _ => .error "panic: interface conversion: result is not a bool"

/-- Input value model of `castToFloat32` (src/sanitizedParameters.go):
one constructor per case of the Go type switch, plus `f32`/`f32v` for
already-canonical values and `other` for everything the switch does not
match.  Go's unsigned integers are carried as `Nat`, signed ones and
`int` as `Int`; `iWord` is the Go `int` case. -/
inductive Raw (F F64 : Type) where
  | u8 : Nat → Raw F F64
  | u16 : Nat → Raw F F64
  | u32 : Nat → Raw F F64
  | u64 : Nat → Raw F F64
  | i8 : Int → Raw F F64
  | i16 : Int → Raw F F64
  | i32 : Int → Raw F F64
  | i64 : Int → Raw F F64
  | iWord : Int → Raw F F64
  | f64 : F64 → Raw F F64
  | u8v : List Nat → Raw F F64
  | u16v : List Nat → Raw F F64
  | u32v : List Nat → Raw F F64
  | u64v : List Nat → Raw F F64
  | i8v : List Int → Raw F F64
  | i16v : List Int → Raw F F64
  | i32v : List Int → Raw F F64
  | i64v : List Int → Raw F F64
  | iWordv : List Int → Raw F F64
  | f64v : List F64 → Raw F F64
  | f32 : F → Raw F F64
  | f32v : List F → Raw F F64
  | other : Value F → Raw F F64

/-- Source `castToFloat32`: every supported integer width and `float64`
(scalar or slice) is widened to `float32`/`[]float32`; everything else
— `float32` and `[]float32` included — falls through the switch and is
returned unchanged.  The Go conversions `float32(x)` are value-based,
so a single `ofInt : Int → F` models all integer-to-float32 conversions
and `ofF64` models the `float64` narrowing. -/
def castToFloat32 (ofInt : Int → F) (ofF64 : F64 → F) : Raw F F64 → Raw F F64
  | .u8 n => .f32 (ofInt n)
  | .u16 n => .f32 (ofInt n)
  | .u32 n => .f32 (ofInt n)
  | .u64 n => .f32 (ofInt n)
  | .i8 z => .f32 (ofInt z)
  | .i16 z => .f32 (ofInt z)
  | .i32 z => .f32 (ofInt z)
  | .i64 z => .f32 (ofInt z)
  | .iWord z => .f32 (ofInt z)
  | .f64 x => .f32 (ofF64 x)
  | .u8v ns => .f32v (ns.map fun n => ofInt n)
  | .u16v ns => .f32v (ns.map fun n => ofInt n)
  | .u32v ns => .f32v (ns.map fun n => ofInt n)
  | .u64v ns => .f32v (ns.map fun n => ofInt n)
  | .i8v zs => .f32v (zs.map fun z => ofInt z)
  | .i16v zs => .f32v (zs.map fun z => ofInt z)
  | .i32v zs => .f32v (zs.map fun z => ofInt z)
  | .i64v zs => .f32v (zs.map fun z => ofInt z)
  | .iWordv zs => .f32v (zs.map fun z => ofInt z)
  | .f64v xs => .f32v (xs.map fun x => ofF64 x)
  | .f32 x => .f32 x
  | .f32v xs => .f32v xs
  | .other v => .other v

/-- Source `sanitizedParameters.Get`: fetch from the wrapped store and
canonicalize the result with `castToFloat32`; errors propagate. -/
def sanitizedGet (ofInt : Int → F) (ofF64 : F64 → F)
    (orig : String → Except String (Raw F F64)) (key : String) :
    Except String (Raw F F64) :=
  match orig key with
  | .error e => .error e
  | .ok value => .ok (castToFloat32 ofInt ofF64 value)

/-- Modelled from the spec: the closed operator symbol enumeration of
section 6 (the `OperatorSymbol` registry file is not under src; only the
field type and a few symbol names are referenced by the stage code). -/
inductive OperatorSymbol where
  | EQ | NEQ | GT | LT | GTE | LTE | REQ | NREQ | AND | OR | IN
  | COALESCE | PLUS | MINUS | MULTIPLY | DIVIDE | MODULUS | EXPONENT
  | BITWISE_AND | BITWISE_OR | BITWISE_XOR | BITWISE_LSHIFT | BITWISE_RSHIFT
  | NEGATE | INVERT | BITWISE_NOT | TERNARY_TRUE | TERNARY_FALSE
  | SEPARATE | FUNCTION | ACCESSOR | LITERAL | PARAMETER | NOOP_RIGHT

/-- Source `evaluationStage` struct: the child pointers
`leftStage`/`rightStage` are modelled by an abstract pointer type `Ref`
(a Go `*evaluationStage`, possibly nil), the optional type-check
function pointers by `Option`. -/
structure EvaluationStage (F Ref : Type) where
  symbol : OperatorSymbol
  leftStage : Ref
  rightStage : Ref
  operator : Value F → Value F → Params F → Except String (Value F)
  leftTypeCheck : Option (Value F → Bool)
  rightTypeCheck : Option (Value F → Bool)
  typeCheck : Option (Value F → Value F → Bool)
  typeErrorFormat : String

/-- Source `setToNonStage`: copy the six non-child fields of `other`
into the receiver, leaving the receiver's child pointers untouched. -/
def setToNonStage (self other : EvaluationStage F Ref) : EvaluationStage F Ref :=
  { self with
    symbol := other.symbol
    operator := other.operator
    leftTypeCheck := other.leftTypeCheck
    rightTypeCheck := other.rightTypeCheck
    typeCheck := other.typeCheck
    typeErrorFormat := other.typeErrorFormat }

/-- Source `swapWith`, functionally: `temp := *other;
other.setToNonStage(*this); this.setToNonStage(temp)`.  Returns the
final states of (receiver, argument). -/
def swapWith (self other : EvaluationStage F Ref) :
    EvaluationStage F Ref × EvaluationStage F Ref :=
  let temp := other
  let other1 := setToNonStage other self
  let self1 := setToNonStage self temp
  (self1, other1)

/-- Concrete float32 model on `ℤ` used to evaluate the theorems on
explicit inputs (the sentinel constant is arbitrary here). -/
def gInt : GoFloat32 Int :=
  { zero := 0, smallestNonzero := 1, fmt := fun _ => "" }

/-- Parameter bag resolving no name at all. -/
def pInt : Params Int := fun _ => .error "unknown parameter"

/-- Parameter bag resolving only `nodata`, to the float32 value 0. -/
def pIntNd0 : Params Int := fun key =>
  if key = "nodata" then .ok (.num 0) else .error "unknown parameter"

/-- Concrete float32 model on `ℚ` in which float32 constants carry
their exact values: `math.SmallestNonzeroFloat32`, the smallest
positive (subnormal) float32, is exactly `2 ^ (-149)`. -/
def gQ : GoFloat32 ℚ :=
  { zero := 0, smallestNonzero := 1 / 2 ^ 149, fmt := fun _ => "" }

/-- Parameter bag over `ℚ` resolving no name at all. -/
def pQ : Params ℚ := fun _ => .error "unknown parameter"

/-- Parameter bag over `ℚ` resolving `nodata` to the float32 value 2. -/
def pQNd2 : Params ℚ := fun key =>
  if key = "nodata" then .ok (.num 2) else .error "unknown parameter"

/-- Parameter bag over `ℚ` resolving `nodata` to a non-float32 value. -/
def pQBad : Params ℚ := fun key =>
  if key = "nodata" then .ok (.str "-")
  else .error "unknown parameter"

/-- Modelled from the spec: `f32::MIN_POSITIVE`, the smallest positive
normal float32 named by the spec as the default sentinel; its exact
value is `2 ^ (-126)`.  Stated for comparison with the source's
`math.SmallestNonzeroFloat32`. -/
def f32MinPositive : ℚ := 1 / 2 ^ 126

/-- C9: `swapWith` exchanges exactly the non-child fields (symbol,
operator, leftTypeCheck, rightTypeCheck, typeCheck, typeErrorFormat)
between the two stages and leaves both stages' `leftStage` and
`rightStage` child pointers unchanged. -/
theorem claim_C9 (a b : EvaluationStage F Ref) :
    (swapWith a b).1.symbol = b.symbol ∧
    (swapWith a b).1.operator = b.operator ∧
    (swapWith a b).1.leftTypeCheck = b.leftTypeCheck ∧
    (swapWith a b).1.rightTypeCheck = b.rightTypeCheck ∧
    (swapWith a b).1.typeCheck = b.typeCheck ∧
    (swapWith a b).1.typeErrorFormat = b.typeErrorFormat ∧
    (swapWith a b).1.leftStage = a.leftStage ∧
    (swapWith a b).1.rightStage = a.rightStage ∧
    (swapWith a b).2.symbol = a.symbol ∧
    (swapWith a b).2.operator = a.operator ∧
    (swapWith a b).2.leftTypeCheck = a.leftTypeCheck ∧
    (swapWith a b).2.rightTypeCheck = a.rightTypeCheck ∧
    (swapWith a b).2.typeCheck = a.typeCheck ∧
    (swapWith a b).2.typeErrorFormat = a.typeErrorFormat ∧
    (swapWith a b).2.leftStage = b.leftStage ∧
    (swapWith a b).2.rightStage = b.rightStage :=
  ⟨rfl, rfl, rfl, rfl, rfl, rfl, rfl, rfl,
   rfl, rfl, rfl, rfl, rfl, rfl, rfl, rfl⟩

/-- C8: canonicalization is idempotent — `castToFloat32` applied to its
own output is the identity; for every supported integer width and for
`float64` the result is the direct float32 conversion of the value; and
already-canonical `float32`/`[]float32` values are returned unchanged. -/
theorem claim_C8 (ofInt : Int → F) (ofF64 : F64 → F) :
    (∀ v : Raw F F64,
      castToFloat32 ofInt ofF64 (castToFloat32 ofInt ofF64 v) =
        castToFloat32 ofInt ofF64 v) ∧
    (∀ n : Nat, castToFloat32 ofInt ofF64 (.u8 n) = .f32 (ofInt n)) ∧
    (∀ n : Nat, castToFloat32 ofInt ofF64 (.u16 n) = .f32 (ofInt n)) ∧
    (∀ n : Nat, castToFloat32 ofInt ofF64 (.u32 n) = .f32 (ofInt n)) ∧
    (∀ n : Nat, castToFloat32 ofInt ofF64 (.u64 n) = .f32 (ofInt n)) ∧
    (∀ z : Int, castToFloat32 ofInt ofF64 (.i8 z) = .f32 (ofInt z)) ∧
    (∀ z : Int, castToFloat32 ofInt ofF64 (.i16 z) = .f32 (ofInt z)) ∧
    (∀ z : Int, castToFloat32 ofInt ofF64 (.i32 z) = .f32 (ofInt z)) ∧
    (∀ z : Int, castToFloat32 ofInt ofF64 (.i64 z) = .f32 (ofInt z)) ∧
    (∀ z : Int, castToFloat32 ofInt ofF64 (.iWord z) = .f32 (ofInt z)) ∧
    (∀ x : F64, castToFloat32 ofInt ofF64 (.f64 x) = .f32 (ofF64 x)) ∧
    (∀ x : F, castToFloat32 ofInt ofF64 (.f32 x) = .f32 x) ∧
    (∀ xs : List F, castToFloat32 ofInt ofF64 (.f32v xs) = .f32v xs) := by
  refine ⟨fun v => ?_, fun _ => rfl, fun _ => rfl, fun _ => rfl, fun _ => rfl,
    fun _ => rfl, fun _ => rfl, fun _ => rfl, fun _ => rfl, fun _ => rfl,
    fun _ => rfl, fun _ => rfl, fun _ => rfl⟩
  cases v <;> rfl

/-- C5: the equality kernels are purely numeric — whenever either
operand is a string, `equalStage` and `notEqualStage` return the
operand error and no value; strings are never compared. -/
theorem claim_C5 (g : GoFloat32 F) (P : Params F) :
    (∀ (s : String) (r : Value F),
      equalStage g (.str s) r P = .error "invalid operand for ==") ∧
    (∀ (l : Value F) (s : String),
      equalStage g l (.str s) P = .error "invalid operand for ==") ∧
    (∀ (s : String) (r : Value F),
      notEqualStage g (.str s) r P = .error "invalid operand for !=") ∧
    (∀ (l : Value F) (s : String),
      notEqualStage g l (.str s) P = .error "invalid operand for !=") := by
  refine ⟨fun s r => ?_, fun l s => ?_, fun s r => ?_, fun l s => ?_⟩
  · cases r <;> rfl
  · cases l <;> rfl
  · cases r <;> rfl
  · cases l <;> rfl

/-- C6: whenever either operand is a string, `addStage` returns the
concatenation of the default textual renderings of left and right, in
that order, and never reaches the numeric branches. -/
theorem claim_C6 (g : GoFloat32 F) (P : Params F) :
    (∀ (s : String) (r : Value F),
      addStage g (.str s) r P =
        .ok (.str (govFormat g (.str s) ++ govFormat g r))) ∧
    (∀ (l : Value F) (s : String),
      addStage g l (.str s) P =
        .ok (.str (govFormat g l ++ govFormat g (.str s)))) := by
  refine ⟨fun s r => rfl, fun l s => ?_⟩
  cases l <;> rfl

/-- C7: regex round-trip — whenever `regexStage` succeeds with a
boolean `b`, `notRegexStage` succeeds with `!b`; whenever `regexStage`
fails, `notRegexStage` fails with the same error. -/
theorem claim_C7 (compile : String → Except String (String → Bool))
    (P : Params F) (l r : Value F) :
    (∀ b : Bool, regexStage compile l r P = .ok (.bool b) →
      notRegexStage compile l r P = .ok (.bool (!b))) ∧
    (∀ e : String, regexStage compile l r P = .error e →
      notRegexStage compile l r P = .error e) := by
  constructor
  · intro b h
    simp [notRegexStage, h]
  · intro e h
    simp [notRegexStage, h]

/-- Concrete witness for C7: with a compiler that matches the pattern
literally, `"a" =~ "a"` is true, so `"a" !~ "a"` is false. -/
theorem claim_C7_witness :
    notRegexStage (fun p => .ok fun s => decide (s = p))
      (Value.str "a") (Value.str "a") pInt = .ok (.bool false) := by
  have h := (claim_C7 (F := Int) (fun p => .ok fun s => decide (s = p))
    pInt (.str "a") (.str "a")).1 true rfl
  simpa using h

/-- Auxiliary: indexing a mapped list is the function applied to the
indexed element. -/
theorem getMapAux {α β : Type} (f : α → β) (l : List α) (i : Nat)
    (h1 : i < (l.map f).length) (h2 : i < l.length) :
    (l.map f).get ⟨i, h1⟩ = f (l.get ⟨i, h2⟩) := by
  induction l generalizing i with
  | nil => cases h2
  | cons a l ih =>
    cases i with
    | zero => rfl
    | succ i => exact ih i (by simpa using h1) (by simpa using h2)

/-- C2: broadcasting law for the cited binary numeric kernels
(`addStage`, `multiplyStage`) — a vector paired with a scalar, on
either side, succeeds with a vector of the same length whose i-th lane
is the scalar operation applied to the i-th element and the scalar. -/
theorem claim_C2 (g : GoFloat32 F) (P : Params F) (v : List F) (s : F) :
    addStage g (.numVec v) (.num s) P = .ok (.numVec (v.map fun a => a + s)) ∧
    addStage g (.num s) (.numVec v) P = .ok (.numVec (v.map fun b => s + b)) ∧
    multiplyStage g (.numVec v) (.num s) P = .ok (.numVec (v.map fun a => a * s)) ∧
    multiplyStage g (.num s) (.numVec v) P = .ok (.numVec (v.map fun b => s * b)) ∧
    (v.map fun a => a + s).length = v.length ∧
    (v.map fun b => s + b).length = v.length ∧
    (v.map fun a => a * s).length = v.length ∧
    (v.map fun b => s * b).length = v.length ∧
    (∀ i (h1 : i < (v.map fun a => a + s).length) (h2 : i < v.length),
      (v.map fun a => a + s).get ⟨i, h1⟩ = v.get ⟨i, h2⟩ + s) ∧
    (∀ i (h1 : i < (v.map fun b => s + b).length) (h2 : i < v.length),
      (v.map fun b => s + b).get ⟨i, h1⟩ = s + v.get ⟨i, h2⟩) ∧
    (∀ i (h1 : i < (v.map fun a => a * s).length) (h2 : i < v.length),
      (v.map fun a => a * s).get ⟨i, h1⟩ = v.get ⟨i, h2⟩ * s) ∧
    (∀ i (h1 : i < (v.map fun b => s * b).length) (h2 : i < v.length),
      (v.map fun b => s * b).get ⟨i, h1⟩ = s * v.get ⟨i, h2⟩) := by
  refine ⟨rfl, rfl, rfl, rfl, by simp, by simp, by simp, by simp,
    fun i h1 h2 => ?_, fun i h1 h2 => ?_, fun i h1 h2 => ?_, fun i h1 h2 => ?_⟩
  · exact getMapAux (fun a => a + s) v i h1 h2
  · exact getMapAux (fun b => s + b) v i h1 h2
  · exact getMapAux (fun a => a * s) v i h1 h2
  · exact getMapAux (fun b => s * b) v i h1 h2

/-- Concrete witness for C2 on `ℤ`: `[1, 2] + 3 = [4, 5]`,
`3 * [1, 2] = [3, 6]`, and lane 0 of `[1, 2] + 3` is `1 + 3`. -/
theorem claim_C2_witness :
    addStage gInt (.numVec [1, 2]) (.num 3) pInt = .ok (.numVec [4, 5]) ∧
    multiplyStage gInt (.num 3) (.numVec [1, 2]) pInt = .ok (.numVec [3, 6]) ∧
    (([1, 2] : List Int).map fun a => a + 3).get ⟨0, by decide⟩ = 4 := by
  have h := claim_C2 gInt pInt [1, 2] 3
  refine ⟨by simpa using h.1, by simpa using h.2.2.2.1, ?_⟩
  have h0 := h.2.2.2.2.2.2.2.2.1 0 (by decide) (by decide)
  simpa using h0

/-- C3: every cited binary kernel given two vectors of unequal lengths
returns the shape error naming both lengths (and no value) — shown for
`addStage`, `multiplyStage`, `equalStage`, `notEqualStage` on
`[]float32`, for `andStage` on `[]bool`, and for `ternaryElseStage`
whenever its NoData lookup succeeds. -/
theorem claim_C3 (g : GoFloat32 F) (P : Params F) (xs ys : List F)
    (bs cs : List Bool) (nd : F)
    (hxy : xs.length ≠ ys.length) (hbc : bs.length ≠ cs.length)
    (hGet : getNoData g P = .ok nd) :
    addStage g (.numVec xs) (.numVec ys) P =
      .error (shapeErr xs.length ys.length) ∧
    multiplyStage g (.numVec xs) (.numVec ys) P =
      .error (shapeErr xs.length ys.length) ∧
    equalStage g (.numVec xs) (.numVec ys) P =
      .error (shapeErr xs.length ys.length) ∧
    notEqualStage g (.numVec xs) (.numVec ys) P =
      .error (shapeErr xs.length ys.length) ∧
    andStage (.boolVec bs) (.boolVec cs) P =
      .error (shapeErr bs.length cs.length) ∧
    ternaryElseStage g (.numVec xs) (.numVec ys) P =
      .error (shapeErr xs.length ys.length) := by
  refine ⟨?_, ?_, ?_, ?_, ?_, ?_⟩
  · simp [addStage, asFloat32Vec, asFloat32, isString, hxy]
  · simp [multiplyStage, asFloat32Vec, asFloat32, hxy]
  · simp [equalStage, asFloat32Vec, asFloat32, hxy]
  · simp [notEqualStage, asFloat32Vec, asFloat32, hxy]
  · simp [andStage, asBoolVec, asBool, hbc]
  · simp [ternaryElseStage, hGet, asFloat32Vec, asFloat32, hxy]

/-- Concrete witness for C3 on `ℤ`: lengths 3 and 2 produce
`different array sizes: 3, 2`. -/
theorem claim_C3_witness :
    addStage gInt (.numVec [1, 2, 3]) (.numVec [1, 2]) pInt =
      .error "different array sizes: 3, 2" ∧
    andStage (F := Int) (.boolVec [true]) (.boolVec []) pInt =
      .error "different array sizes: 1, 0" := by
  have h := claim_C3 gInt pInt [1, 2, 3] [1, 2] [true] [] 1
    (by decide) (by decide) rfl
  exact ⟨h.1, h.2.2.2.2.1⟩

/-- C4 (amended): the NoData sentinel defaults to
`math.SmallestNonzeroFloat32` — the smallest positive *subnormal*
float32, exactly `2 ^ (-149)` — when no parameter named `nodata` is
resolvable; a resolvable `nodata` that is a float32 overrides it; a
resolvable `nodata` of any other shape makes the kernel fail with the
configuration error and no value. -/
theorem claim_C4 (g : GoFloat32 F) (P : Params F) :
    (∀ e : String, P "nodata" = .error e →
      getNoData g P = .ok g.smallestNonzero) ∧
    (∀ v : F, P "nodata" = .ok (.num v) → getNoData g P = .ok v) ∧
    (∀ w : Value F, P "nodata" = .ok w → (∀ v : F, w ≠ .num v) →
      getNoData g P = .error ("invalid nodata value: " ++ govFormat g w)) ∧
    gQ.smallestNonzero = 1 / 2 ^ 149 := by
  refine ⟨fun e h => ?_, fun v h => ?_, fun w h hnum => ?_, rfl⟩
  · simp [getNoData, h]
  · simp [getNoData, h]
  · cases w with
    | num v => exact absurd rfl (hnum v)
    | numVec xs => simp [getNoData, h]
    | bool b => simp [getNoData, h]
    | boolVec bs => simp [getNoData, h]
    | str s => simp [getNoData, h]
    | regex m => simp [getNoData, h]
    | list vs => simp [getNoData, h]
    | nil => simp [getNoData, h]

/-- Counterexample to C4 as stated: with no `nodata` parameter the
code's default sentinel is `math.SmallestNonzeroFloat32 = 2 ^ (-149)`
(the smallest positive subnormal float32), which differs from the
spec's `f32::MIN_POSITIVE = 2 ^ (-126)` (the smallest positive normal
float32). -/
theorem claim_C4_cex :
    getNoData gQ pQ = .ok ((1 : ℚ) / 2 ^ 149) ∧
    ((1 : ℚ) / 2 ^ 149) ≠ f32MinPositive := by
  refine ⟨rfl, ?_⟩
  simp only [f32MinPositive]
  norm_num

/-- Concrete witness for C4 on `ℚ`: absent `nodata` yields the default
sentinel, a float32 `nodata` overrides it, and a string `nodata` is a
configuration error. -/
theorem claim_C4_witness :
    getNoData gQ pQ = .ok gQ.smallestNonzero ∧
    getNoData gQ pQNd2 = .ok 2 ∧
    getNoData gQ pQBad =
      .error ("invalid nodata value: " ++ govFormat gQ (.str "-")) := by
  refine ⟨(claim_C4 gQ pQ).1 "unknown parameter" rfl,
    (claim_C4 gQ pQNd2).2.1 2 rfl,
    (claim_C4 gQ pQBad).2.2.1 (.str "-") rfl fun v h => ?_⟩
  cases h

/-- C10: `ternaryElseStage` on a nil-interface left operand and a
numeric right operand — the failed `left.(float32)` assertion leaves
the float32 zero value in `lx`, so when the NoData sentinel equals 0
the kernel returns the alternative (the scalar, or a lane-wise copy of
the vector), and for any non-zero sentinel it returns the ternary-else
operand error instead. -/
theorem claim_C10 (g : GoFloat32 F) (P : Params F) (nd y : F) (ys : List F)
    (hGet : getNoData g P = .ok nd) :
    (g.zero = nd → ternaryElseStage g .nil (.num y) P = .ok (.num y)) ∧
    (g.zero = nd → ternaryElseStage g .nil (.numVec ys) P = .ok (.numVec ys)) ∧
    (g.zero ≠ nd → ternaryElseStage g .nil (.num y) P =
      .error "invalid operand for ternary else") ∧
    (g.zero ≠ nd → ternaryElseStage g .nil (.numVec ys) P =
      .error "invalid operand for ternary else") := by
  refine ⟨fun h => ?_, fun h => ?_, fun h => ?_, fun h => ?_⟩ <;>
    simp [ternaryElseStage, hGet, asFloat32Vec, asFloat32, asBool, asBoolVec, h]

/-- Concrete witness for C10 on `ℤ`: with `nodata = 0` the alternative
is substituted for a nil left operand; with the non-zero default
sentinel the kernel errors. -/
theorem claim_C10_witness :
    ternaryElseStage gInt .nil (.num 7) pIntNd0 = .ok (.num 7) ∧
    ternaryElseStage gInt .nil (.numVec [1, 2]) pIntNd0 =
      .ok (.numVec [1, 2]) ∧
    ternaryElseStage gInt .nil (.num 7) pInt =
      .error "invalid operand for ternary else" := by
  have h0 := claim_C10 gInt pIntNd0 0 7 [1, 2] rfl
  have h1 := claim_C10 gInt pInt 1 7 [] rfl
  exact ⟨h0.1 rfl, h0.2.1 rfl, h1.2.2.1 (by decide)⟩

/-- Reduction of `ternaryIfStage` on a scalar condition and scalar
value, once the NoData lookup is fixed. -/
theorem tifBoolNum (g : GoFloat32 F) (P : Params F) (nd : F) (cb : Bool) (x : F)
    (hGet : getNoData g P = .ok nd) :
    ternaryIfStage g (.bool cb) (.num x) P =
      .ok (if cb then Value.num x else Value.num nd) := by
  unfold ternaryIfStage
  rw [hGet]
  rfl

/-- Reduction of `ternaryIfStage` on a scalar condition and vector
value. -/
theorem tifBoolNumVec (g : GoFloat32 F) (P : Params F) (nd : F) (cb : Bool)
    (xs : List F) (hGet : getNoData g P = .ok nd) :
    ternaryIfStage g (.bool cb) (.numVec xs) P =
      .ok (.numVec (xs.map fun a => if cb then a else nd)) := by
  unfold ternaryIfStage
  rw [hGet]
  rfl

/-- Reduction of `ternaryIfStage` on a vector condition and scalar
value. -/
theorem tifBoolVecNum (g : GoFloat32 F) (P : Params F) (nd : F) (cs : List Bool)
    (x : F) (hGet : getNoData g P = .ok nd) :
    ternaryIfStage g (.boolVec cs) (.num x) P =
      .ok (.numVec (cs.map fun c => if c then x else nd)) := by
  unfold ternaryIfStage
  rw [hGet]
  rfl

/-- Reduction of `ternaryIfStage` on a vector condition and vector
value of equal lengths. -/
theorem tifBoolVecNumVec (g : GoFloat32 F) (P : Params F) (nd : F)
    (cs : List Bool) (xs : List F) (hGet : getNoData g P = .ok nd)
    (hlen : cs.length = xs.length) :
    ternaryIfStage g (.boolVec cs) (.numVec xs) P =
      .ok (.numVec (List.zipWith (fun c a => if c then a else nd) cs xs)) := by
  unfold ternaryIfStage
  rw [hGet]
  simp [asBoolVec, asFloat32Vec, hlen]

/-- Reduction of `ternaryElseStage` on two scalars. -/
theorem telseNumNum (g : GoFloat32 F) (P : Params F) (nd : F) (a y : F)
    (hGet : getNoData g P = .ok nd) :
    ternaryElseStage g (.num a) (.num y) P =
      if a = nd then .ok (Value.num y) else .ok (Value.num a) := by
  unfold ternaryElseStage
  rw [hGet]
  rfl

/-- Reduction of `ternaryElseStage` on a scalar left and vector
alternative. -/
theorem telseNumNumVec (g : GoFloat32 F) (P : Params F) (nd : F) (a : F)
    (ys : List F) (hGet : getNoData g P = .ok nd) :
    ternaryElseStage g (.num a) (.numVec ys) P =
      .ok (.numVec (ys.map fun b => if a = nd then b else a)) := by
  unfold ternaryElseStage
  rw [hGet]
  rfl

/-- Reduction of `ternaryElseStage` on a vector left and scalar
alternative. -/
theorem telseNumVecNum (g : GoFloat32 F) (P : Params F) (nd : F) (l : List F)
    (y : F) (hGet : getNoData g P = .ok nd) :
    ternaryElseStage g (.numVec l) (.num y) P =
      .ok (.numVec (l.map fun a => if a = nd then y else a)) := by
  unfold ternaryElseStage
  rw [hGet]
  rfl

/-- Reduction of `ternaryElseStage` on two vectors of equal lengths. -/
theorem telseNumVecNumVec (g : GoFloat32 F) (P : Params F) (nd : F)
    (l ys : List F) (hGet : getNoData g P = .ok nd)
    (hlen : l.length = ys.length) :
    ternaryElseStage g (.numVec l) (.numVec ys) P =
      .ok (.numVec (List.zipWith (fun a b => if a = nd then b else a) l ys)) := by
  unfold ternaryElseStage
  rw [hGet]
  simp [asFloat32Vec, hlen]

/-- Auxiliary: the NoData substitution map is the identity on a list
with no NoData lanes. -/
theorem mapIfNeq (nd y : F) (xs : List F) (hx : ∀ a ∈ xs, a ≠ nd) :
    xs.map (fun a => if a = nd then y else a) = xs := by
  induction xs with
  | nil => rfl
  | cons a l ih =>
    simp only [List.map_cons, if_neg (hx a (by simp))]
    rw [ih fun b hb => hx b (by simp [hb])]

/-- Auxiliary: the lane-wise NoData substitution keeps the left vector
when none of its lanes is NoData. -/
theorem zipIfNeq (nd : F) (xs ys : List F) (hlen : xs.length = ys.length)
    (hx : ∀ a ∈ xs, a ≠ nd) :
    List.zipWith (fun a b => if a = nd then b else a) xs ys = xs := by
  induction xs generalizing ys with
  | nil => rfl
  | cons a l ih =>
    cases ys with
    | nil => simp at hlen
    | cons b m =>
      simp only [List.zipWith_cons_cons, if_neg (hx a (by simp))]
      rw [ih m (by simpa using hlen) fun c hc => hx c (by simp [hc])]

/-- Auxiliary: zipping two equal-length lists with the left projection
returns the left list. -/
theorem zipWithFst {α β : Type} (xs : List α) (ys : List β)
    (hlen : xs.length = ys.length) :
    List.zipWith (fun a _ => a) xs ys = xs := by
  induction xs generalizing ys with
  | nil => rfl
  | cons a l ih =>
    cases ys with
    | nil => simp at hlen
    | cons b m => simpa using ih m (by simpa using hlen)

/-- Auxiliary: zipping two equal-length lists with the right projection
returns the right list. -/
theorem zipWithSnd {α β : Type} (xs : List α) (ys : List β)
    (hlen : xs.length = ys.length) :
    List.zipWith (fun _ b => b) xs ys = ys := by
  induction xs generalizing ys with
  | nil => cases ys with
    | nil => rfl
    | cons b m => simp at hlen
  | cons a l ih =>
    cases ys with
    | nil => simp at hlen
    | cons b m => simpa using ih m (by simpa using hlen)

/-- Auxiliary: the lane-wise NoData substitution over an all-NoData
left vector of matching length returns the alternative vector. -/
theorem zipNdLeft (nd : F) (xs ys : List F) (hlen : xs.length = ys.length) :
    List.zipWith (fun a b => if a = nd then b else a) (xs.map fun _ => nd) ys =
      ys := by
  induction xs generalizing ys with
  | nil => cases ys with
    | nil => rfl
    | cons b m => simp at hlen
  | cons a l ih =>
    cases ys with
    | nil => simp at hlen
    | cons b m => simpa using ih m (by simpa using hlen)

/-- Auxiliary: substituting NoData lanes after a scalar-value ternary-if
over a condition vector yields the lane-wise scalar/alternative
selection. -/
theorem mapIfBool (nd x y : F) (cs : List Bool) (hx : x ≠ nd) :
    (cs.map fun c => if c then x else nd).map (fun a => if a = nd then y else a) =
      cs.map fun c => if c then x else y := by
  induction cs with
  | nil => rfl
  | cons c l ih =>
    cases c <;> simp only [List.map_cons, if_true, if_false, if_neg hx, if_pos rfl,
      Bool.false_eq_true, ite_false, ite_true] <;> rw [ih]

/-- Auxiliary: the lane-wise NoData substitution after a scalar-value
ternary-if over a condition vector, against a vector alternative. -/
theorem zipMapIf (nd x : F) (cs : List Bool) (ys : List F) (hx : x ≠ nd) :
    List.zipWith (fun a b => if a = nd then b else a)
      (cs.map fun c => if c then x else nd) ys =
      List.zipWith (fun c b => if c then x else b) cs ys := by
  induction cs generalizing ys with
  | nil => rfl
  | cons c l ih =>
    cases ys with
    | nil => rfl
    | cons b m =>
      cases c <;>
        simp only [List.map_cons, List.zipWith_cons_cons, if_true, if_false,
          if_neg hx, if_pos rfl, Bool.false_eq_true, ite_false, ite_true] <;>
        rw [ih]

/-- Auxiliary: the NoData substitution map after a vector-value
ternary-if yields the lane-wise value/alternative selection against a
scalar alternative. -/
theorem mapZipIf (nd y : F) (cs : List Bool) (xs : List F)
    (hx : ∀ a ∈ xs, a ≠ nd) :
    (List.zipWith (fun c a => if c then a else nd) cs xs).map
      (fun a => if a = nd then y else a) =
      List.zipWith (fun c a => if c then a else y) cs xs := by
  induction cs generalizing xs with
  | nil => rfl
  | cons c l ih =>
    cases xs with
    | nil => rfl
    | cons a m =>
      cases c <;>
        simp only [List.zipWith_cons_cons, List.map_cons, if_true, if_false,
          if_neg (hx a (by simp)), if_pos rfl, Bool.false_eq_true, ite_false,
          ite_true] <;>
        rw [ih m fun b hb => hx b (by simp [hb])]

/-- Auxiliary: the lane-wise NoData substitution after a vector-value
ternary-if, against a vector alternative, is the three-way lane
selection. -/
theorem zipZipIf (nd : F) (cs : List Bool) (xs ys : List F)
    (hx : ∀ a ∈ xs, a ≠ nd) :
    List.zipWith (fun a b => if a = nd then b else a)
      (List.zipWith (fun c a => if c then a else nd) cs xs) ys =
      laneSelect cs xs ys := by
  induction cs generalizing xs ys with
  | nil => cases xs <;> cases ys <;> rfl
  | cons c l ih =>
    cases xs with
    | nil => cases ys <;> rfl
    | cons a m =>
      cases ys with
      | nil => rfl
      | cons b k =>
        cases c <;>
          simp only [List.zipWith_cons_cons, laneSelect, if_true, if_false,
            if_neg (hx a (by simp)), if_pos rfl, Bool.false_eq_true, ite_false,
            ite_true] <;>
          rw [ih m k fun v hv => hx v (by simp [hv])]

/-- Auxiliary: the kernel composition `ternaryElseStage(ternaryIfStage(c,a), b)`
unfolds through a successful ternary-if. -/
theorem ternaryComposeOk (g : GoFloat32 F) (P : Params F) (c a b v : Value F)
    (h : ternaryIfStage g c a P = .ok v) :
    ternaryCompose g P c a b = ternaryElseStage g v b P := by
  unfold ternaryCompose
  rw [h]

/-- C1 (amended): composing the ternary kernels as
`ternaryElseStage(ternaryIfStage(c, a), b)` yields, lane-wise, `a`
where the condition is true and `b` where it is false, for every
scalar/vector shape combination of condition, value and alternative
(vector operands of equal lengths) — provided no component of `a`
equals the resolved NoData sentinel.  Lanes of `a` equal to the
sentinel are indistinguishable from suppressed lanes and are replaced
by `b` even where the condition is true. -/
theorem claim_C1 (g : GoFloat32 F) (P : Params F) (nd : F) (cb : Bool)
    (cs : List Bool) (x y : F) (xs ys : List F)
    (hGet : getNoData g P = .ok nd) :
    (x ≠ nd →
      ternaryCompose g P (.bool cb) (.num x) (.num y) =
        .ok (.num (if cb then x else y))) ∧
    (x ≠ nd →
      ternaryCompose g P (.bool cb) (.num x) (.numVec ys) =
        .ok (.numVec (ys.map fun b => if cb then x else b))) ∧
    ((∀ a ∈ xs, a ≠ nd) →
      ternaryCompose g P (.bool cb) (.numVec xs) (.num y) =
        .ok (.numVec (xs.map fun a => if cb then a else y))) ∧
    (xs.length = ys.length → (∀ a ∈ xs, a ≠ nd) →
      ternaryCompose g P (.bool cb) (.numVec xs) (.numVec ys) =
        .ok (.numVec (List.zipWith (fun a b => if cb then a else b) xs ys))) ∧
    (x ≠ nd →
      ternaryCompose g P (.boolVec cs) (.num x) (.num y) =
        .ok (.numVec (cs.map fun c => if c then x else y))) ∧
    (cs.length = ys.length → x ≠ nd →
      ternaryCompose g P (.boolVec cs) (.num x) (.numVec ys) =
        .ok (.numVec (List.zipWith (fun c b => if c then x else b) cs ys))) ∧
    (cs.length = xs.length → (∀ a ∈ xs, a ≠ nd) →
      ternaryCompose g P (.boolVec cs) (.numVec xs) (.num y) =
        .ok (.numVec (List.zipWith (fun c a => if c then a else y) cs xs))) ∧
    (cs.length = xs.length → xs.length = ys.length → (∀ a ∈ xs, a ≠ nd) →
      ternaryCompose g P (.boolVec cs) (.numVec xs) (.numVec ys) =
        .ok (.numVec (laneSelect cs xs ys))) := by
  refine ⟨?_, ?_, ?_, ?_, ?_, ?_, ?_, ?_⟩
  · intro hx
    cases cb with
    | false =>
      rw [ternaryComposeOk g P _ _ _ _ (tifBoolNum g P nd false x hGet)]
      show ternaryElseStage g (.num nd) (.num y) P = Except.ok (Value.num y)
      rw [telseNumNum g P nd nd y hGet]
      simp
    | true =>
      rw [ternaryComposeOk g P _ _ _ _ (tifBoolNum g P nd true x hGet)]
      show ternaryElseStage g (.num x) (.num y) P = Except.ok (Value.num x)
      rw [telseNumNum g P nd x y hGet]
      rw [if_neg hx]
  · intro hx
    cases cb with
    | false =>
      rw [ternaryComposeOk g P _ _ _ _ (tifBoolNum g P nd false x hGet)]
      show ternaryElseStage g (.num nd) (.numVec ys) P =
        Except.ok (Value.numVec (ys.map fun b => b))
      rw [telseNumNumVec g P nd nd ys hGet]
      simp
    | true =>
      rw [ternaryComposeOk g P _ _ _ _ (tifBoolNum g P nd true x hGet)]
      show ternaryElseStage g (.num x) (.numVec ys) P =
        Except.ok (Value.numVec (ys.map fun _ => x))
      rw [telseNumNumVec g P nd x ys hGet]
      simp [hx]
  · intro hx
    cases cb with
    | false =>
      rw [ternaryComposeOk g P _ _ _ _ (tifBoolNumVec g P nd false xs hGet)]
      rw [telseNumVecNum g P nd _ y hGet]
      show Except.ok (Value.numVec
          ((xs.map fun _ => nd).map fun a => if a = nd then y else a)) =
        Except.ok (Value.numVec (xs.map fun _ => y))
      rw [List.map_map]
      show Except.ok (Value.numVec (xs.map fun _ => if nd = nd then y else nd)) =
        Except.ok (Value.numVec (xs.map fun _ => y))
      simp
    | true =>
      rw [ternaryComposeOk g P _ _ _ _ (tifBoolNumVec g P nd true xs hGet)]
      rw [telseNumVecNum g P nd _ y hGet]
      show Except.ok (Value.numVec
          ((xs.map fun a => a).map fun a => if a = nd then y else a)) =
        Except.ok (Value.numVec (xs.map fun a => a))
      rw [List.map_id']
      rw [mapIfNeq nd y xs hx]
  · intro hlen hx
    cases cb with
    | false =>
      rw [ternaryComposeOk g P _ _ _ _ (tifBoolNumVec g P nd false xs hGet)]
      rw [telseNumVecNumVec g P nd _ ys hGet (by simpa using hlen)]
      show Except.ok (Value.numVec (List.zipWith (fun a b => if a = nd then b else a)
          (xs.map fun _ => nd) ys)) =
        Except.ok (Value.numVec (List.zipWith (fun _ b => b) xs ys))
      rw [zipNdLeft nd xs ys hlen, zipWithSnd xs ys hlen]
    | true =>
      rw [ternaryComposeOk g P _ _ _ _ (tifBoolNumVec g P nd true xs hGet)]
      rw [telseNumVecNumVec g P nd _ ys hGet (by simpa using hlen)]
      show Except.ok (Value.numVec (List.zipWith (fun a b => if a = nd then b else a)
          (xs.map fun a => a) ys)) =
        Except.ok (Value.numVec (List.zipWith (fun a _ => a) xs ys))
      rw [List.map_id']
      rw [zipIfNeq nd xs ys hlen hx, zipWithFst xs ys hlen]
  · intro hx
    rw [ternaryComposeOk g P _ _ _ _ (tifBoolVecNum g P nd cs x hGet)]
    rw [telseNumVecNum g P nd _ y hGet]
    rw [mapIfBool nd x y cs hx]
  · intro hlen hx
    rw [ternaryComposeOk g P _ _ _ _ (tifBoolVecNum g P nd cs x hGet)]
    rw [telseNumVecNumVec g P nd _ ys hGet (by simpa using hlen)]
    rw [zipMapIf nd x cs ys hx]
  · intro hlen hx
    rw [ternaryComposeOk g P _ _ _ _ (tifBoolVecNumVec g P nd cs xs hGet hlen)]
    rw [telseNumVecNum g P nd _ y hGet]
    rw [mapZipIf nd y cs xs hx]
  · intro hlen1 hlen2 hx
    rw [ternaryComposeOk g P _ _ _ _ (tifBoolVecNumVec g P nd cs xs hGet hlen1)]
    rw [telseNumVecNumVec g P nd _ ys hGet
      (by rw [List.length_zipWith, hlen1, min_self, hlen2])]
    rw [zipZipIf nd cs xs ys hx]

/-- Counterexample to C1 as stated: over `ℤ` with the default sentinel
1 and no `nodata` parameter, `true ? 1 : 0` evaluates through the two
kernels to 0, not to the selected value 1 — a value lane equal to the
NoData sentinel is replaced by the alternative even though the
condition is true. -/
theorem claim_C1_cex :
    ternaryCompose gInt pInt (.bool true) (.num 1) (.num 0) = .ok (.num 0) ∧
    Value.num (1 : Int) ≠ Value.num 0 := by
  refine ⟨rfl, ?_⟩
  intro h
  injection h with h1
  exact absurd h1 (by decide)

/-- Concrete witness for C1 on `ℤ` (sentinel 1): a scalar ternary and a
two-lane vector ternary select the value on true lanes and the
alternative on false lanes. -/
theorem claim_C1_witness :
    ternaryCompose gInt pInt (.bool true) (.num 5) (.num 7) = .ok (.num 5) ∧
    ternaryCompose gInt pInt (.boolVec [true, false]) (.numVec [5, 6])
      (.numVec [8, 9]) = .ok (.numVec [5, 9]) := by
  have h := claim_C1 gInt pInt 1 true [true, false] 5 7 [5, 6] [8, 9] rfl
  constructor
  · have h1 := h.1 (by decide)
    simpa using h1
  · have h8 := h.2.2.2.2.2.2.2 (by decide) (by decide) (by decide)
    simpa [laneSelect] using h8
